import Mathlib

/-!
Shallow embedding of src/pyroute2/netlink/rtnl/ifinfmsg/compat.py
(the rtnl compatibility proxy), together with theorems settling the
frozen claims about its specification.

Conventions of the embedding:
* every function keeps the name of the Python function it embeds;
* nested netlink attribute trees are modelled by the inductive `AVal`;
* the environment (sysfs files, directory listings, subprocess exit
  codes) is passed in explicitly as record-of-functions oracles,
  since the Python code reads it through OS calls;
* Python exceptions become the `PyErr` type; in-place mutation of a
  message followed by an escaping exception is modelled by returning
  the message state reached at the raise point together with the error.
-/

namespace Pyroute2Compat

/-- Value of a netlink attribute: scalar int, scalar string, or a
nested attribute tree (a dict with an `attrs` list in the source). -/
inductive AVal where
  | i : Int → AVal
  | s : String → AVal
  | tree : List (String × AVal) → AVal

/-- A decoded link message (`ifinfmsg`): header type, interface index,
marshalled event name, whether the dict has an `attrs` key, and the
ordered attribute list. -/
structure LinkMsg where
  htype : Int
  index : Int
  event : String
  hasAttrs : Bool
  attrs : List (String × AVal)

/-- Python exceptions that the embedded code can raise. -/
inductive PyErr where
  | osError : Int → PyErr
  | valueError : String → PyErr
  | netlinkError : Int → String → PyErr
  | attributeError : PyErr
  | typeError : PyErr
  | keyError : PyErr
  | calledProcessError : Int → PyErr
deriving DecidableEq

/-- First attribute with the given name, as `nla.get_attr` returns it. -/
def getA (attrs : List (String × AVal)) (name : String) : Option AVal :=
  (attrs.find? (fun p => p.1 == name)).map (fun p => p.2)

/-- `msg.get_attr(name)` on a message. -/
def LinkMsg.get_attr (m : LinkMsg) (name : String) : Option AVal :=
  getA m.attrs name

/-- String-typed attribute access (returns none when absent or non-string). -/
def getStrA (m : LinkMsg) (name : String) : Option String :=
  match m.get_attr name with
  | some (.s v) => some v
  | _ => none

/-- Int-typed attribute access (returns none when absent or non-int). -/
def getIntA (m : LinkMsg) (name : String) : Option Int :=
  match m.get_attr name with
  | some (.i v) => some v
  | _ => none

/-- Replace the whole attribute list of a message. -/
def withAttrs (m : LinkMsg) (a : List (String × AVal)) : LinkMsg :=
  ⟨m.htype, m.index, m.event, m.hasAttrs, a⟩

/-- Python `%s` formatting of an attribute value (None prints as
"None"; nested dicts never reach a format site on the paths we model). -/
def pyFmt : Option AVal → String
  | some (.s v) => v
  | some (.i n) => toString n
  | some (.tree _) => "dict"
  | none => "None"

/-- Interface name used for sysfs path construction
(`msg.get_attr('IFLA_IFNAME')` interpolated with `%s`). -/
def ifnameOf (m : LinkMsg) : String := pyFmt (m.get_attr "IFLA_IFNAME")

/-- Sysfs / OS oracle: `readFile p = some c` means opening and reading
path `p` yields text `c`; `none` means the open raises `IOError`.
`listdir` either lists a directory or fails with an OS errno. -/
structure Sysfs where
  readFile : String → Option String
  listdir : String → Except Int (List String)

/-- Capability flags negotiated by the transport layer. -/
structure Caps where
  provide_master : Bool
  create_bond : Bool
  create_bridge : Bool

/-- Attribute-name tables and the name mangling imported from
`ifinfmsg` (external to the file under verification): the `nla_map`
command lists of `bond_data` / `bridge_data` and `nla2name`. -/
structure NlaTables where
  bond_map : List String
  bridge_map : List String
  nla2name : String → String

def bridgeMasterPath (name : String) : String :=
  "/sys/class/net/" ++ name ++ "/brport/bridge/ifindex"

def bondingMasterPath (name : String) : String :=
  "/sys/class/net/" ++ name ++ "/master/ifindex"

/-- Whitespace recognizer for the Python text helpers below. -/
def isWsChar (c : Char) : Bool :=
  c == ' ' || c == '\n' || c == '\t' || c == '\r'

/-- Drop leading whitespace characters. -/
def dropWsL : List Char → List Char
  | [] => []
  | c :: cs => if isWsChar c then dropWsL cs else c :: cs

/-- Strip whitespace from both ends of a character list. -/
def trimChars (cs : List Char) : List Char :=
  (dropWsL (dropWsL cs).reverse).reverse

/-- Accumulate a decimal value over digit characters; any non-digit
fails. -/
def digitsVal : List Char → Nat → Option Nat
  | [], acc => some acc
  | c :: cs, acc =>
    if c.isDigit then digitsVal cs (10 * acc + (c.toNat - 48)) else none

/-- Parse a non-empty all-digit character list. -/
def parseDigits : List Char → Option Nat
  | [] => none
  | cs => digitsVal cs 0

/-- Parse an optionally signed decimal integer. -/
def parseIntChars : List Char → Option Int
  | [] => none
  | c :: rest =>
    if c == '-' then (parseDigits rest).map (fun n => -(n : Int))
    else if c == '+' then (parseDigits rest).map (fun n => (n : Int))
    else (parseDigits (c :: rest)).map (fun n => (n : Int))

/-- Python `int(text)` semantics on the strings this code meets:
surrounding whitespace tolerated, otherwise an optionally signed
decimal literal; none on failure. -/
def pyIntOpt (s : String) : Option Int :=
  parseIntChars (trimChars s.data)

/-- Python `int(text)`, raising `ValueError` on failure. -/
def pyInt (s : String) : Except PyErr Int :=
  match pyIntOpt s with
  | some n => .ok n
  | none => .error (.valueError "invalid literal for int")

/-- Worker for `pySplitWs`, carrying the current (reversed) field. -/
def splitWsGo : List Char → List Char → List String
  | [], cur => if cur.isEmpty then [] else [⟨cur.reverse⟩]
  | c :: cs, cur =>
    if isWsChar c then
      (if cur.isEmpty then splitWsGo cs [] else ⟨cur.reverse⟩ :: splitWsGo cs [])
    else splitWsGo cs (c :: cur)

/-- Python `str.split()` (split on whitespace runs, no empty fields). -/
def pySplitWs (s : String) : List String :=
  splitWsGo s.data []

/-- Embeds `compat_get_master`: try the bridge-port path, then the
bonding-port path; the first file that opens is read and parsed as an
int; if neither opens, return None. A malformed file raises
`ValueError` (the `int` call sits outside the `except IOError`). -/
def compat_get_master (fs : Sysfs) (name : String) : Except PyErr (Option Int) :=
  match fs.readFile (bridgeMasterPath name) with
  | some c => (pyInt c).map some
  | none =>
    match fs.readFile (bondingMasterPath name) with
    | some c => (pyInt c).map some
    | none => .ok none

/-- Embeds `get_interface_type`: list `/sys/class/net/<name>/`; errno 2
gives "unknown", any other OS error propagates; otherwise classify by
marker directory entries. -/
def get_interface_type (fs : Sysfs) (name : String) : Except PyErr String :=
  match fs.listdir ("/sys/class/net/" ++ name ++ "/") with
  | .error e => if e = 2 then .ok "unknown" else .error (.osError e)
  | .ok l =>
    .ok (if l.contains "bonding" then "bond"
         else if l.contains "bridge" then "bridge" else "unknown")

/-- The "fix master" step of `compat_fix_attrs` (lines 66-70): when the
`provide_master` capability is absent, resolve the master from sysfs
and, if one resolved, append `IFLA_MASTER`. The source performs no
check for an already-present `IFLA_MASTER` attribute. -/
def fixMaster (caps : Caps) (fs : Sysfs) (m : LinkMsg) : LinkMsg × Option PyErr :=
  if caps.provide_master then (m, none)
  else
    match compat_get_master fs (ifnameOf m) with
    | .error e => (m, some e)
    | .ok none => (m, none)
    | .ok (some master) =>
      (withAttrs m (m.attrs ++ [("IFLA_MASTER", AVal.i master)]), none)

/-- Append an entry into the tree value of the first attribute named
`key` (models in-place `li['attrs'].append(...)` through the reference
returned by `get_attr`). -/
def appendIntoFirst (attrs : List (String × AVal)) (key : String)
    (entry : String × AVal) : List (String × AVal) :=
  match attrs with
  | [] => []
  | (n, v) :: rest =>
    if n == key then
      match v with
      | .tree t => (n, .tree (t ++ [entry])) :: rest
      | _ => (n, v) :: rest
    else (n, v) :: appendIntoFirst rest key entry

/-- The "fix linkinfo and kind" step of `compat_fix_attrs` (lines
72-84). Returns the updated message, the resolved kind (a string kind
value, or none when the declared kind is a non-string value), whether
control continues to the info-data step (the source returns early when
the message has neither `IFLA_LINKINFO` nor an `attrs` key), and a
possible escaping exception. -/
def fixKind (fs : Sysfs) (m : LinkMsg) :
    LinkMsg × Option String × Bool × Option PyErr :=
  match m.get_attr "IFLA_LINKINFO" with
  | some (.tree li) =>
    match getA li "IFLA_INFO_KIND" with
    | some kv =>
      (m, (match kv with | .s k => some k | _ => none), true, none)
    | none =>
      match get_interface_type fs (ifnameOf m) with
      | .error e => (m, none, false, some e)
      | .ok k =>
        (withAttrs m (appendIntoFirst m.attrs "IFLA_LINKINFO"
            ("IFLA_INFO_KIND", AVal.s k)), some k, true, none)
  | some _ => (m, none, false, some PyErr.attributeError)
  | none =>
    if m.hasAttrs then
      match get_interface_type fs (ifnameOf m) with
      | .error e => (m, none, false, some e)
      | .ok k =>
        (withAttrs m (m.attrs ++
            [("IFLA_LINKINFO", AVal.tree [("IFLA_INFO_KIND", AVal.s k)])]),
         some k, true, none)
    else (m, none, false, none)

/-- One iteration of the info-data read loop (lines 99-107): open the
sysfs attribute file; for `IFLA_BOND_MODE` take the second whitespace
token; parse as int; any failure is swallowed by the bare `except`. -/
def readIfdataValue (fs : Sysfs) (path : String) (cmd : String) : Option Int :=
  match fs.readFile path with
  | none => none
  | some value =>
    let tok : Option String :=
      if cmd == "IFLA_BOND_MODE" then (pySplitWs value).get? 1
      else some value
    match tok with
    | none => none
    | some w => pyIntOpt w

/-- The "fetch specific interface data" step of `compat_fix_attrs`
(lines 86-109), exactly as in the source: the guard requires the list
comprehension over `IFLA_INFO_DATA` entries to be non-empty, i.e. the
branch runs precisely when an info-data block is already PRESENT, and
the collected values are appended as a further `IFLA_INFO_DATA` entry. -/
def fixData (fs : Sysfs) (tabs : NlaTables) (kind : Option String)
    (m : LinkMsg) : LinkMsg :=
  match m.get_attr "IFLA_LINKINFO" with
  | some (.tree li) =>
    if (kind == some "bridge" || kind == some "bond") &&
        li.any (fun p => p.1 == "IFLA_INFO_DATA") then
      let dir := if kind == some "bridge" then "bridge" else "bonding"
      let table := if kind == some "bridge" then tabs.bridge_map else tabs.bond_map
      let commands : List (String × AVal) := table.filterMap (fun cmd =>
        (readIfdataValue fs
            ("/sys/class/net/" ++ ifnameOf m ++ "/" ++ dir ++ "/" ++
              tabs.nla2name cmd) cmd).map (fun v => (cmd, AVal.i v)))
      if commands.isEmpty then m
      else withAttrs m (appendIntoFirst m.attrs "IFLA_LINKINFO"
            ("IFLA_INFO_DATA", AVal.tree commands))
    else m
  | _ => m

/-- Embeds `compat_fix_attrs`: the three enrichment steps in source
order; an exception escaping a step aborts the rest, leaving the
mutations already applied in place. -/
def compat_fix_attrs (caps : Caps) (fs : Sysfs) (tabs : NlaTables)
    (m : LinkMsg) : LinkMsg × Option PyErr :=
  match fixMaster caps fs m with
  | (m1, some e) => (m1, some e)
  | (m1, none) =>
    match fixKind fs m1 with
    | (m2, _, _, some e) => (m2, some e)
    | (m2, kind, cont, none) =>
      if cont then (fixData fs tabs kind m2, none) else (m2, none)

/-! Inbound info-response path (`proxy_linkinfo`). The generic netlink
codec (`MarshalRtnl.parse` / `msg.encode`) is external to the file under
verification; the batch is therefore given already parsed, each message
paired with its raw wire chunk, and re-encoding is an arbitrary encoder
argument `enc`.  `sampleEnc` below is one concrete injective encoder used
for closed evaluations. -/

/-- Forwarding verdict returned to the transport layer. -/
structure Verdict where
  verdict : String
  data : String
deriving DecidableEq

/-- Body of the `proxy_linkinfo` loop: `NLMSG_ERROR` messages are copied
through raw; other messages are enriched, with `OSError` (and only
`OSError`) caught and ignored, then re-encoded; chunks concatenate in
order.  A non-OS exception (for example the `ValueError` that a
malformed sysfs master file provokes) escapes the loop. -/
def proxy_linkinfo_go (caps : Caps) (fs : Sysfs) (tabs : NlaTables)
    (enc : LinkMsg → String) : List (LinkMsg × String) → Except PyErr String
  | [] => .ok ""
  | (msg, raw) :: rest =>
    let chunk : Except PyErr String :=
      if msg.event == "NLMSG_ERROR" then .ok raw
      else
        match compat_fix_attrs caps fs tabs msg with
        | (m2, none) => .ok (enc m2)
        | (m2, some (.osError _)) => .ok (enc m2)
        | (_, some e) => .error e
    match chunk with
    | .error e => .error e
    | .ok c =>
      match proxy_linkinfo_go caps fs tabs enc rest with
      | .error e => .error e
      | .ok restData => .ok (c ++ restData)

/-- Embeds `proxy_linkinfo` (lines 112-137). -/
def proxy_linkinfo (caps : Caps) (fs : Sysfs) (tabs : NlaTables)
    (enc : LinkMsg → String) (inbox : List (LinkMsg × String)) :
    Except PyErr Verdict :=
  (proxy_linkinfo_go caps fs tabs enc inbox).map (fun d => ⟨"forward", d⟩)

/-- Concatenation of a list of strings in order. -/
def strConcat : List String → String
  | [] => ""
  | c :: rest => c ++ strConcat rest

/-- Fuel-bounded printer for attribute values (the fuel only bounds the
nesting depth; all values in this development have depth below 8). -/
def encAVal : Nat → AVal → String
  | _, .i n => "i:" ++ toString n
  | _, .s v => "s:" ++ v
  | 0, .tree _ => "t:!"
  | fuel+1, .tree ts =>
    "t:[" ++ strConcat (ts.map (fun p => "(" ++ p.1 ++ "=" ++
      encAVal fuel p.2 ++ ")")) ++ "]"

/-- A concrete injective message encoder standing in for the external
netlink codec in closed evaluations. -/
def sampleEnc (m : LinkMsg) : String :=
  "hdr:" ++ toString m.htype ++ ";idx:" ++ toString m.index ++
  ";ev:" ++ m.event ++ ";attrs:" ++
  strConcat (m.attrs.map (fun p => "(" ++ p.1 ++ "=" ++ encAVal 8 p.2 ++ ")"))

/-! Outbound modify-link path (`proxy_setlink`) and the legacy port /
attribute executors it dispatches to.  Side effects are collected in an
`Eff` trace; their outcomes come from oracles in `SetEnv`. -/

/-- One observable side effect of the modify-link path. -/
inductive Eff where
  | shellWrite : String → Eff
  | fileWrite : String → String → Eff
  | procCall : List String → Eff
deriving DecidableEq

/-- The netlink handle `nl`: capability flags plus `nl.get_links(i)[0]`
viewed as a total oracle over interface indexes. -/
structure NlHandle where
  caps : Caps
  getLink : Int → LinkMsg

/-- Environment of the modify-link path: the netlink handle, the exit
code of a `bash -c` shell write, the errno (if any) of a plain sysfs
file write, and the outcome of a `subprocess.check_call` (none means
exit 0; some e means the call raised e). -/
structure SetEnv where
  nl : NlHandle
  shellRc : String → Int
  writeErr : String → String → Option Int
  procRes : List String → Option PyErr

/-- Result of the inner `get_interface` helper of `proxy_setlink`:
`kind = some "unknown"` models the `AttributeError` fallback when the
queried message has no link-info block, while `kind = none` models the
Python `None` obtained when the block exists but declares no kind. -/
structure IfaceDesc where
  ifname : String
  master : Option Int
  kind : Option String
deriving DecidableEq

/-- Embeds `get_interface` (lines 142-150). -/
def get_interface (nl : NlHandle) (index : Int) : IfaceDesc :=
  let msg := nl.getLink index
  let kind : Option String :=
    match msg.get_attr "IFLA_LINKINFO" with
    | some (.tree li) =>
      match getA li "IFLA_INFO_KIND" with
      | some (.s k) => some k
      | _ => none
    | _ => some "unknown"
  ⟨(getStrA msg "IFLA_IFNAME").getD "None", getIntA msg "IFLA_MASTER", kind⟩

/-- The shell command built by `compat_set_bond` (line 417). -/
def bondSetCmd (value name cmd : String) : String :=
  "echo " ++ value ++ " >/sys/class/net/" ++ name ++ "/bonding/" ++ cmd

/-- The shell command built by `compat_set_bridge` (line 425). -/
def bridgeSetCmd (value name cmd : String) : String :=
  "echo " ++ value ++ " >/sys/class/net/" ++ name ++ "/bridge/" ++ cmd

/-- Embeds `compat_set_bond`: one shell write, returning its exit code. -/
def compat_set_bond (env : SetEnv) (name cmd value : String) : List Eff × Int :=
  ([Eff.shellWrite (bondSetCmd value name cmd)],
   env.shellRc (bondSetCmd value name cmd))

/-- Embeds `compat_set_bridge`: one shell write, returning its exit code. -/
def compat_set_bridge (env : SetEnv) (name cmd value : String) : List Eff × Int :=
  ([Eff.shellWrite (bridgeSetCmd value name cmd)],
   env.shellRc (bridgeSetCmd value name cmd))

/-- Modelled from the spec: `pyroute2.common.map_enoent` is imported by
the file under verification but its definition is not under src/; per
spec section 4.5 a missing team executable maps to an
"EOPNOTSUPP-class error", so an `OSError` with errno 2 (ENOENT) becomes
a `NetlinkError` with errno 95 (EOPNOTSUPP); everything else passes
through. -/
def map_enoent (r : Except PyErr (Option Bool)) : Except PyErr (Option Bool) :=
  match r with
  | .error (.osError e) =>
    if e = 2 then .error (.netlinkError 95 "Operation not supported")
    else .error (.osError e)
  | x => x

/-- Embeds `manage_team_port` (before the `map_enoent` wrapping): one
`teamdctl` invocation; success returns Python `None`. -/
def manage_team_port (env : SetEnv) (cmd master port : String) :
    List Eff × Except PyErr (Option Bool) :=
  let argv := ["teamdctl", master, "port",
               if cmd == "del" then "remove" else "add", port]
  ([Eff.procCall argv],
   match env.procRes argv with
   | none => .ok none
   | some e => .error e)

/-- Embeds `compat_bridge_port` (lines 452-458): capability short
circuit returns `True`; otherwise one `brctl addif`/`delif` call,
returning `None` on success. -/
def compat_bridge_port (env : SetEnv) (cmd master port : String) :
    List Eff × Except PyErr (Option Bool) :=
  if env.nl.caps.create_bridge then ([], .ok (some true))
  else
    let argv := ["brctl", cmd ++ "if", master, port]
    ([Eff.procCall argv],
     match env.procRes argv with
     | none => .ok none
     | some e => .error e)

def bondSlavesPath (master : String) : String :=
  "/sys/class/net/" ++ master ++ "/bonding/slaves"

/-- Embeds `compat_bond_port` (lines 461-468): capability short circuit
returns `True`; otherwise the command is remapped to a sign and exactly
one line is written to the slaves file of the master; success returns
`None`; a failing write raises `OSError`. -/
def compat_bond_port (env : SetEnv) (cmd master port : String) :
    List Eff × Except PyErr (Option Bool) :=
  if env.nl.caps.create_bond then ([], .ok (some true))
  else
    match (if cmd == "add" then some "+" else
           if cmd == "del" then some "-" else none) with
    | none => ([], .error PyErr.keyError)
    | some sign =>
      ([Eff.fileWrite (bondSlavesPath master) (sign ++ port)],
       match env.writeErr (bondSlavesPath master) (sign ++ port) with
       | none => .ok none
       | some e => .error (.osError e))

/-- The interface name used by `proxy_setlink` (lines 159-160):
`msg.get_attr('IFLA_IFNAME') or get_interface(msg['index'])['ifname']`
(Python treats the empty string as falsy). -/
def setlinkIfname (env : SetEnv) (msg : LinkMsg) : String :=
  match getStrA msg "IFLA_IFNAME" with
  | some s => if s == "" then (get_interface env.nl msg.index).ifname else s
  | none => (get_interface env.nl msg.index).ifname

/-- Kind and info-data extraction of `proxy_setlink` (lines 161-164). -/
def setlinkKindInfodata (msg : LinkMsg) : Option String × Option AVal :=
  match msg.get_attr "IFLA_LINKINFO" with
  | some (.tree li) =>
    ((match getA li "IFLA_INFO_KIND" with
      | some (.s k) => some k
      | _ => none),
     getA li "IFLA_INFO_DATA")
  | _ => (none, none)

/-- One iteration of the attribute-write loop of `proxy_setlink`
(lines 174-176): `cmd = infodata.nla2name(cmd)`, dispatch to the kind
executor, and `code = func(...) or code` (keeping the exit code of the
latest failing write). -/
def setlinkWriteStep (env : SetEnv) (tabs : NlaTables) (kind : Option String)
    (ifname : String) (acc : List Eff × Int) (p : String × AVal) :
    List Eff × Int :=
  let cmdName := tabs.nla2name p.1
  let (e, rc) :=
    if kind == some "bond" then
      compat_set_bond env ifname cmdName (pyFmt (some p.2))
    else
      compat_set_bridge env ifname cmdName (pyFmt (some p.2))
  (acc.1 ++ e, if rc ≠ 0 then rc else acc.2)

/-- The attribute-write loop of `proxy_setlink` (lines 166-181),
accumulator form over the info-data pairs. -/
def setlinkWriteLoop (env : SetEnv) (tabs : NlaTables) (kind : Option String)
    (ifname : String) (pairs : List (String × AVal)) : List Eff × Int :=
  pairs.foldl (setlinkWriteStep env tabs kind ifname) ([], 0)

/-- The attribute-write stage of `proxy_setlink`: runs the loop when the
kind is bond or bridge and an info-data block is present, and raises
`OSError` with the captured code when that code is non-zero. -/
def setlinkWriteStage (env : SetEnv) (tabs : NlaTables) (kind : Option String)
    (infodata : Option AVal) (ifname : String) : List Eff × Except PyErr Unit :=
  if (kind == some "bond" || kind == some "bridge") && infodata.isSome then
    match infodata with
    | some (.tree pairs) =>
      let (tr, code) := setlinkWriteLoop env tabs kind ifname pairs
      (tr, if code ≠ 0 then .error (.osError code) else .ok ())
    | _ => ([], .error PyErr.attributeError)
  else ([], .ok ())

/-- Master resolution of the port branch (lines 184-197): index 0 looks
up the current master of the interface first; a missing current master
makes `nl.get_links(None)` blow up, modelled as `TypeError`. -/
def setlinkResolveMaster (env : SetEnv) (msg : LinkMsg) (master : Int) :
    Except PyErr (IfaceDesc × String) :=
  if master = 0 then
    let iface := get_interface env.nl msg.index
    match iface.master with
    | some mi => .ok (get_interface env.nl mi, "del")
    | none => .error PyErr.typeError
  else .ok (get_interface env.nl master, "add")

/-- The `forward_map` dispatch (lines 200-205): none when the master
kind has no port executor (the `forward` flag keeps its initial `True`). -/
def portDispatch (env : SetEnv) (cmd : String) (mdesc : IfaceDesc)
    (port : String) : Option (List Eff × Except PyErr (Option Bool)) :=
  match mdesc.kind with
  | some k =>
    if k == "team" then
      some (let r := manage_team_port env cmd mdesc.ifname port
            (r.1, map_enoent r.2))
    else if k == "bridge" then some (compat_bridge_port env cmd mdesc.ifname port)
    else if k == "bond" then some (compat_bond_port env cmd mdesc.ifname port)
    else none
  | none => none

/-- Embeds `proxy_setlink` (lines 140-209).  The result pairs the side
effect trace with either a raised exception, a forward verdict carrying
the original wire buffer `imsgData`, or `none` for the consumed case
(the Python function falls off the end and returns `None`). -/
def proxy_setlink (env : SetEnv) (tabs : NlaTables) (imsgData : String)
    (msg : LinkMsg) : List Eff × Except PyErr (Option Verdict) :=
  let ifname := setlinkIfname env msg
  let ki := setlinkKindInfodata msg
  match setlinkWriteStage env tabs ki.1 ki.2 ifname with
  | (tr1, .error e) => (tr1, .error e)
  | (tr1, .ok ()) =>
    match getIntA msg "IFLA_MASTER" with
    | none => (tr1, .ok (some ⟨"forward", imsgData⟩))
    | some master =>
      match setlinkResolveMaster env msg master with
      | .error e => (tr1, .error e)
      | .ok (mdesc, cmd) =>
        match portDispatch env cmd mdesc ifname with
        | none => (tr1, .ok (some ⟨"forward", imsgData⟩))
        | some (tr2, .error e) => (tr1 ++ tr2, .error e)
        | some (tr2, .ok fwd) =>
          (tr1 ++ tr2,
           .ok (if fwd.isSome then some ⟨"forward", imsgData⟩ else none))

/-! Create-link router (`proxy_newlink`). -/

/-- Routing outcome of `proxy_newlink`: which executor receives the
decoded message, or a forward verdict carrying the raw request bytes. -/
inductive NewlinkRoute where
  | toTuntap : LinkMsg → NewlinkRoute
  | toTeam : LinkMsg → NewlinkRoute
  | toCreateBond : LinkMsg → NewlinkRoute
  | toCreateBridge : LinkMsg → NewlinkRoute
  | fwd : String → NewlinkRoute

/-- Kind extraction of `proxy_newlink` (lines 299-304): the first
`IFLA_INFO_KIND` entry of the link-info block, if any.  The Python
empty-list and `None` cases both compare unequal to every kind tag and
are collapsed into `none`. -/
def newlinkKind (msg : LinkMsg) : Option AVal :=
  match msg.get_attr "IFLA_LINKINFO" with
  | some (.tree li) =>
    ((li.filter (fun p => p.1 == "IFLA_INFO_KIND")).map (fun p => p.2)).head?
  | _ => none

/-- Embeds `proxy_newlink` (lines 293-316). -/
def proxy_newlink (caps : Caps) (imsgData : String) (msg : LinkMsg) :
    NewlinkRoute :=
  match newlinkKind msg with
  | some (.s k) =>
    if k == "tuntap" then .toTuntap msg
    else if k == "team" then .toTeam msg
    else if k == "bond" then
      (if caps.create_bond then .fwd imsgData else .toCreateBond msg)
    else if k == "bridge" then
      (if caps.create_bridge then .fwd imsgData else .toCreateBridge msg)
    else .fwd imsgData
  | _ => .fwd imsgData

/-- The declared info-kind of a create request, as a string tag (spec
vocabulary for stating the routing property). -/
def declaredKind (msg : LinkMsg) : Option String :=
  match newlinkKind msg with
  | some (.s k) => some k
  | _ => none

/-! Tun/tap executor (`manage_tuntap`).  The traced syscalls are the
open of `/dev/net/tun`, each `ioctl` request number, and the closing of
the control file descriptor. -/

def RTM_NEWLINK : Int := 16
def IFNAMSIZ : Nat := 16
def IFT_TUN : Nat := 0x0001
def IFT_TAP : Nat := 0x0002
def IFT_NO_PI : Nat := 0x1000
def IFT_ONE_QUEUE : Nat := 0x2000
def IFT_VNET_HDR : Nat := 0x4000
def IFT_MULTI_QUEUE : Nat := 0x0100

/-- A tun-device syscall. -/
inductive TunSys where
  | openTun : TunSys
  | ioctlReq : Int → TunSys
  | closeTun : TunSys
deriving DecidableEq

/-- The per-architecture ioctl request numbers (module header lines
30-42); an architecture outside the two known families has none. -/
structure TunNums where
  setiff : Int
  setpersist : Int
  setowner : Int
  setgroup : Int

/-- Oracle for the tun control device: whether the open fails, and the
errno (if any) of each ioctl request. -/
structure TunEnv where
  nums : Option TunNums
  openErr : Option Int
  ioctlErr : Int → Option Int

/-- Python truthiness of an attribute value. -/
def pyTruthy : AVal → Bool
  | .i n => n ≠ 0
  | .s v => v ≠ ""
  | .tree t => ¬t.isEmpty

/-- The mode/flags computation of `manage_tuntap` (lines 354-373): the
mode test raises `ValueError` before the option-flag block runs; a
present `IFTUN_IFR` block is read with plain indexing, so a missing
field raises `KeyError`. -/
def tuntapFlags (infodata : List (String × AVal)) : Except PyErr Nat :=
  let base : Except PyErr Nat :=
    match getA infodata "IFTUN_MODE" with
    | some (.s k) =>
      if k == "tun" then .ok IFT_TUN
      else if k == "tap" then .ok IFT_TAP
      else .error (.valueError "invalid mode")
    | _ => .error (.valueError "invalid mode")
  match base with
  | .error e => .error e
  | .ok b =>
    match getA infodata "IFTUN_IFR" with
    | none => .ok b
    | some (.tree fl) =>
      match getA fl "no_pi", getA fl "one_queue",
            getA fl "vnet_hdr", getA fl "multi_queue" with
      | some a, some b2, some c, some d =>
        .ok (b |||
          (if pyTruthy a then IFT_NO_PI else 0) |||
          (if pyTruthy b2 then IFT_ONE_QUEUE else 0) |||
          (if pyTruthy c then IFT_VNET_HDR else 0) |||
          (if pyTruthy d then IFT_MULTI_QUEUE else 0))
      | _, _, _, _ => .error PyErr.keyError
    | some _ => .error PyErr.typeError

/-- Run a list of ioctl requests in order, stopping at the first one
whose errno oracle fires. -/
def runIoctls (env : TunEnv) : List Int → List TunSys × Except PyErr Unit
  | [] => ([], .ok ())
  | r :: rest =>
    match env.ioctlErr r with
    | some e => ([TunSys.ioctlReq r], .error (.osError e))
    | none =>
      let (t, res) := runIoctls env rest
      (TunSys.ioctlReq r :: t, res)

/-- Embeds `manage_tuntap` (lines 345-395), without the `sync`
decoration (modelled separately): architecture gate, event gate, mode
and option flags, name-length validation, then the open / ioctl chain /
close sequence with its `finally`. -/
def manage_tuntap (env : TunEnv) (msg : LinkMsg) :
    List TunSys × Except PyErr Unit :=
  match env.nums with
  | none => ([], .error (.netlinkError 95 "Arch not supported"))
  | some nums =>
    if msg.htype ≠ RTM_NEWLINK then
      ([], .error (.netlinkError 95 "Unsupported event"))
    else
      match msg.get_attr "IFLA_LINKINFO" with
      | some (.tree li) =>
        match getA li "IFLA_INFO_DATA" with
        | some (.tree infodata) =>
          (match tuntapFlags infodata with
           | .error e => ([], .error e)
           | .ok _ =>
             match getStrA msg "IFLA_IFNAME" with
             | none => ([], .error PyErr.typeError)
             | some name =>
               if name.length > IFNAMSIZ then
                 ([], .error (.valueError "ifname too long"))
               else
                 let uid := getA infodata "IFTUN_UID"
                 let gid := getA infodata "IFTUN_GID"
                 match env.openErr with
                 | some e => ([TunSys.openTun], .error (.osError e))
                 | none =>
                   let reqs := [nums.setiff] ++
                     (if uid.isSome then [nums.setowner] else []) ++
                     (if gid.isSome then [nums.setgroup] else []) ++
                     [nums.setpersist]
                   let (tr, res) := runIoctls env reqs
                   ([TunSys.openTun] ++ tr ++ [TunSys.closeTun], res))
        | _ => ([], .error PyErr.attributeError)
      | _ => ([], .error PyErr.attributeError)

/-! Event-synchronization wrapper (`sync`, lines 212-266): the watcher
thread body `monitor` and the decorated control flow. -/

/-- A Python value as compared by `==` across types: values of distinct
runtime types are simply unequal. -/
inductive PyV where
  | vint : Int → PyV
  | vstr : String → PyV
deriving DecidableEq

/-- Python `==` between possibly differently typed values. -/
def pyEq : PyV → PyV → Bool
  | .vint a, .vint b => a == b
  | .vstr a, .vstr b => a == b
  | _, _ => false

/-- A notification observed by the watcher: marshalled event name and
the `IFLA_IFNAME` attribute. -/
structure MiniMsg where
  event : String
  ifname : Option String
deriving DecidableEq

/-- One ready file descriptor in a poll batch: the netlink socket (with
the messages then read from it) or the cancellation pipe; each carries
the poll event mask that `poll.poll()` reports. -/
inductive PollItem where
  | nl : Int → List MiniMsg → PollItem
  | cancel : Int → PollItem
deriving DecidableEq

/-- How the watcher terminated (or failed to, on a finite schedule). -/
inductive MonOutcome where
  | matched : MonOutcome
  | cancelled : MonOutcome
  | hung : MonOutcome
deriving DecidableEq

/-- One pass over a poll batch (lines 237-245).  Faithful to the
source, the tuple unpacking `for (fd, event) in events` rebinds the
`event` parameter to the integer poll mask, so the match test compares
the string `msg.get('event')` against that integer. -/
def monitorBatch (ifname : String) : List PollItem → Option MonOutcome
  | [] => none
  | .nl mask msgs :: rest =>
    if msgs.any (fun m =>
        pyEq (.vstr m.event) (.vint mask) && m.ifname == some ifname) then
      some .matched
    else monitorBatch ifname rest
  | .cancel _ :: _ => some .cancelled

/-- Embeds the watcher body `monitor` (lines 229-245) over a finite
schedule of poll batches.  The `eventArg` parameter is the
`RTM_VALUES[...]` event name passed by `decorated`; after the rebinding
described at `monitorBatch` it is never consulted again. -/
def monitor (eventArg : PyV) (ifname : String) :
    List (List PollItem) → MonOutcome
  | [] => .hung
  | batch :: more =>
    match monitorBatch ifname batch with
    | some o => o
    | none => monitor eventArg ifname more

/-- An action of the decorated wrapper in the primary flow of control. -/
inductive SyncAct where
  | pipeOpen : SyncAct
  | threadStart : SyncAct
  | execEvent : Nat → SyncAct
  | writeCancel : SyncAct
  | joinWatcher : SyncAct
  | closeReadEnd : SyncAct
  | closeWriteEnd : SyncAct
deriving DecidableEq

/-- The cleanup suffix run by the `finally` block (lines 259-263). -/
def syncCleanup : List SyncAct :=
  [SyncAct.writeCancel, SyncAct.joinWatcher,
   SyncAct.closeReadEnd, SyncAct.closeWriteEnd]

/-- Embeds `decorated` (lines 247-264): pipe and thread setup, the
executor call (its own steps abstracted as numbered events), the
`except Exception: raise` clause that re-raises unchanged, and the
`finally` cleanup that runs on both the return and the raise path. -/
def sync_decorated (f : LinkMsg → List Nat × Except PyErr PyV)
    (msg : LinkMsg) : List SyncAct × Except PyErr PyV :=
  let body := f msg
  let afterTry : Except PyErr PyV :=
    match body.2 with
    | .error e => .error e
    | .ok v => .ok v
  ([SyncAct.pipeOpen, SyncAct.threadStart] ++ body.1.map SyncAct.execEvent ++
     syncCleanup, afterTry)

/-! Concrete fixtures used by closed evaluations. -/

/-- Capability snapshot with everything absent. -/
def capsOff : Caps := ⟨false, false, false⟩

/-- Capability snapshot with everything present. -/
def capsOn : Caps := ⟨true, true, true⟩

/-- Sysfs fixture for the master-resolution scenarios: eth0 is a bridge
port with master index 7; nothing else is readable. -/
def fsC1 : Sysfs :=
  ⟨fun p => if p == bridgeMasterPath "eth0" then some "7" else none,
   fun _ => .error 2⟩

/-- A link message that already carries a master-index attribute. -/
def msgC1 : LinkMsg :=
  ⟨16, 1, "RTM_NEWLINK", true,
   [("IFLA_IFNAME", AVal.s "eth0"), ("IFLA_MASTER", AVal.i 4)]⟩

/-- C1, counterexample: with `provide_master` absent and a resolvable
sysfs master, the fix-master step appends `IFLA_MASTER` even though the
message already carries one, so the attribute set is NOT left unchanged
as the claim states. -/
theorem fixMaster_appends_despite_existing_master :
    (fixMaster capsOff fsC1 msgC1).1.attrs =
      msgC1.attrs ++ [("IFLA_MASTER", AVal.i 7)] ∧
    getIntA msgC1 "IFLA_MASTER" = some 4 ∧
    (fixMaster capsOff fsC1 msgC1).1.attrs.length ≠ msgC1.attrs.length := by
  refine ⟨rfl, rfl, by decide⟩

/-- C1, amended: with `provide_master` absent, the fix-master step
appends the resolved master index if and only if sysfs resolves one,
regardless of any master attribute already on the message; when none
resolves (or the lookup raises), the attribute set is unchanged. -/
theorem fixMaster_append_iff_resolved (caps : Caps) (fs : Sysfs) (m : LinkMsg)
    (h : caps.provide_master = false) :
    (fixMaster caps fs m).1.attrs =
      m.attrs ++
        (match compat_get_master fs (ifnameOf m) with
         | .ok (some x) => [("IFLA_MASTER", AVal.i x)]
         | _ => []) := by
  unfold fixMaster
  rw [h]
  simp only [Bool.false_eq_true, if_false]
  rcases hr : compat_get_master fs (ifnameOf m) with e | v
  · simp
  · rcases v with _ | x
    · simp
    · simp [withAttrs]

/-- C1, witness for the amended theorem at the concrete fixture. -/
theorem fixMaster_append_iff_resolved_witness :
    capsOff.provide_master = false ∧
    (fixMaster capsOff fsC1 msgC1).1.attrs =
      msgC1.attrs ++
        (match compat_get_master fsC1 (ifnameOf msgC1) with
         | .ok (some x) => [("IFLA_MASTER", AVal.i x)]
         | _ => []) :=
  ⟨rfl, fixMaster_append_iff_resolved capsOff fsC1 msgC1 rfl⟩

/-! C3: the info-data enrichment guard is inverted in the code. -/

/-- Attribute tables for the bond scenarios: a single bond parameter. -/
def tabsC3 : NlaTables :=
  ⟨["IFLA_BOND_MODE"], [],
   fun s => if s == "IFLA_BOND_MODE" then "mode" else "x"⟩

/-- Sysfs fixture where the bond mode file of bond0 is readable. -/
def fsC3 : Sysfs :=
  ⟨fun p => if p == "/sys/class/net/bond0/bonding/mode"
            then some "balance-rr 0\n" else none,
   fun _ => .error 13⟩

/-- A bond link message whose link-info block has no info-data. -/
def msgC3absent : LinkMsg :=
  ⟨16, 2, "RTM_NEWLINK", true,
   [("IFLA_IFNAME", AVal.s "bond0"),
    ("IFLA_LINKINFO", AVal.tree [("IFLA_INFO_KIND", AVal.s "bond")])]⟩

/-- A bond link message whose link-info block already has info-data. -/
def msgC3present : LinkMsg :=
  ⟨16, 2, "RTM_NEWLINK", true,
   [("IFLA_IFNAME", AVal.s "bond0"),
    ("IFLA_LINKINFO", AVal.tree
      [("IFLA_INFO_KIND", AVal.s "bond"),
       ("IFLA_INFO_DATA", AVal.tree [("IFLA_BOND_MODE", AVal.i 0)])])]⟩

/-- C3: the guard of the info-data step tests that an `IFLA_INFO_DATA`
entry is PRESENT (a non-empty list comprehension), not absent.  On a
bond message lacking info-data, with the sysfs attribute table
readable, enrichment changes nothing; on a bond message that already
carries info-data, a second, duplicate info-data block is appended.
This contradicts the claimed (and documented) enrichment behaviour. -/
theorem compat_fix_attrs_infodata_guard_inverted :
    compat_fix_attrs capsOn fsC3 tabsC3 msgC3absent = (msgC3absent, none) ∧
    (compat_fix_attrs capsOn fsC3 tabsC3 msgC3present).1.attrs =
      [("IFLA_IFNAME", AVal.s "bond0"),
       ("IFLA_LINKINFO", AVal.tree
         [("IFLA_INFO_KIND", AVal.s "bond"),
          ("IFLA_INFO_DATA", AVal.tree [("IFLA_BOND_MODE", AVal.i 0)]),
          ("IFLA_INFO_DATA", AVal.tree [("IFLA_BOND_MODE", AVal.i 0)])])] :=
  ⟨rfl, rfl⟩

/-! C8: the inbound info-response batch loop. -/

/-- Sysfs fixture where eth1 resolves a bridge master (index 5) but the
directory listing fails with errno 13 (EACCES), so the kind probe
raises `OSError` after the master has already been appended. -/
def fsC8 : Sysfs :=
  ⟨fun p => if p == bridgeMasterPath "eth1" then some "5" else none,
   fun _ => .error 13⟩

/-- An inbound link message without a link-info block. -/
def msgC8 : LinkMsg :=
  ⟨16, 3, "RTM_NEWLINK", true, [("IFLA_IFNAME", AVal.s "eth1")]⟩

/-- The state `msgC8` reaches when enrichment appends the master and
then raises while probing the interface kind. -/
def msgC8m : LinkMsg :=
  withAttrs msgC8 (msgC8.attrs ++ [("IFLA_MASTER", AVal.i 5)])

/-- C8, counterexample: when enrichment has already appended the master
attribute and then raises `OSError` probing the kind, the message is
re-encoded WITH that partial mutation, so the chunk placed in the batch
differs from the original wire bytes — not "passed through as-is". -/
theorem proxy_linkinfo_not_as_is :
    proxy_linkinfo capsOff fsC8 tabsC3 sampleEnc [(msgC8, sampleEnc msgC8)] =
      .ok ⟨"forward", sampleEnc msgC8m⟩ ∧
    sampleEnc msgC8m ≠ sampleEnc msgC8 :=
  ⟨rfl, by decide⟩

/-- The chunk the batch loop emits for one inbound message. -/
def linkinfoChunk (caps : Caps) (fs : Sysfs) (tabs : NlaTables)
    (enc : LinkMsg → String) (p : LinkMsg × String) : String :=
  if p.1.event == "NLMSG_ERROR" then p.2
  else enc (compat_fix_attrs caps fs tabs p.1).1

/-- Whether processing one inbound message raises nothing that escapes
the batch loop (no exception, or an `OSError`, which the loop catches). -/
def enrichAbsorbed (caps : Caps) (fs : Sysfs) (tabs : NlaTables)
    (p : LinkMsg × String) : Bool :=
  if p.1.event == "NLMSG_ERROR" then true
  else
    match (compat_fix_attrs caps fs tabs p.1).2 with
    | none => true
    | some (.osError _) => true
    | some _ => false

/-- Helper for C8: the loop body over a whole batch. -/
theorem proxy_linkinfo_go_batch (caps : Caps) (fs : Sysfs) (tabs : NlaTables)
    (enc : LinkMsg → String) :
    ∀ inbox : List (LinkMsg × String),
      inbox.all (enrichAbsorbed caps fs tabs) = true →
      proxy_linkinfo_go caps fs tabs enc inbox =
        .ok (strConcat (inbox.map (linkinfoChunk caps fs tabs enc))) := by
  intro inbox
  induction inbox with
  | nil => intro _; rfl
  | cons p rest ih =>
    intro h
    rw [List.all_cons, Bool.and_eq_true] at h
    obtain ⟨h1, h2⟩ := h
    obtain ⟨m, raw⟩ := p
    by_cases he : m.event == "NLMSG_ERROR"
    · simp [proxy_linkinfo_go, he, ih h2, strConcat, linkinfoChunk]
    · rcases hfix : compat_fix_attrs caps fs tabs m with ⟨m2, err⟩
      unfold enrichAbsorbed at h1
      simp only [he, if_false, hfix] at h1
      rcases err with _ | e
      · simp [proxy_linkinfo_go, he, hfix, ih h2, strConcat, linkinfoChunk]
      · cases e with
        | osError en =>
          simp [proxy_linkinfo_go, he, hfix, ih h2, strConcat, linkinfoChunk]
        | valueError v => simp at h1
        | netlinkError en s => simp at h1
        | attributeError => simp at h1
        | typeError => simp at h1
        | keyError => simp at h1
        | calledProcessError rc => simp at h1

/-- C8, amended: every message of an inbound batch is processed and its
chunk placed in order in the forwarded buffer: `NLMSG_ERROR` messages
are copied through raw, other messages are enriched and re-encoded, and
a message whose enrichment raises `OSError` is still re-encoded and
included — carrying whatever partial enrichment happened before the
error — never aborting the rest of the batch. -/
theorem proxy_linkinfo_batch (caps : Caps) (fs : Sysfs) (tabs : NlaTables)
    (enc : LinkMsg → String) (inbox : List (LinkMsg × String))
    (h : inbox.all (enrichAbsorbed caps fs tabs) = true) :
    proxy_linkinfo caps fs tabs enc inbox =
      .ok ⟨"forward", strConcat (inbox.map (linkinfoChunk caps fs tabs enc))⟩ := by
  unfold proxy_linkinfo
  rw [proxy_linkinfo_go_batch caps fs tabs enc inbox h]
  rfl

/-- An inbound `NLMSG_ERROR` message fixture. -/
def msgErrC8 : LinkMsg := ⟨2, 9, "NLMSG_ERROR", true, []⟩

/-- The two-message inbound batch fixture for the C8 witness. -/
def inboxC8 : List (LinkMsg × String) :=
  [(msgErrC8, "RAWERR"), (msgC8, sampleEnc msgC8)]

/-- C8, witness: the batch theorem applied to a concrete batch holding
an error message and a message whose enrichment raises `OSError`. -/
theorem proxy_linkinfo_batch_witness :
    inboxC8.all (enrichAbsorbed capsOff fsC8 tabsC3) = true ∧
    proxy_linkinfo capsOff fsC8 tabsC3 sampleEnc inboxC8 =
      .ok ⟨"forward",
        strConcat (inboxC8.map (linkinfoChunk capsOff fsC8 tabsC3 sampleEnc))⟩ :=
  ⟨rfl, proxy_linkinfo_batch capsOff fsC8 tabsC3 sampleEnc inboxC8 rfl⟩

/-! C4 and C5: the event-synchronization wrapper. -/

/-- Helper: a poll batch never terminates the watcher as matched,
because the match test compares the message event string against the
integer poll mask that the loop variable rebinding put into `event`. -/
theorem monitorBatch_no_match (i : String) :
    ∀ b : List PollItem, monitorBatch i b ≠ some MonOutcome.matched := by
  intro b
  induction b with
  | nil => simp [monitorBatch]
  | cons hd tl ih =>
    cases hd with
    | nl mask msgs =>
      have hany : msgs.any (fun m =>
          pyEq (.vstr m.event) (.vint mask) && m.ifname == some i) = false := by
        rw [List.any_eq_false]
        intro m _
        simp [pyEq]
      simp [monitorBatch, hany, ih]
    | cancel mask => simp [monitorBatch]

/-- Helper: a poll batch never reports the hung outcome (hung only
models exhausting a finite schedule inside `monitor`). -/
theorem monitorBatch_not_hung (i : String) :
    ∀ b : List PollItem, monitorBatch i b ≠ some MonOutcome.hung := by
  intro b
  induction b with
  | nil => simp [monitorBatch]
  | cons hd tl ih =>
    cases hd with
    | nl mask msgs =>
      by_cases hany : msgs.any (fun m =>
          pyEq (.vstr m.event) (.vint mask) && m.ifname == some i) = true
      · simp [monitorBatch, hany]
      · simp only [Bool.not_eq_true] at hany
        simp [monitorBatch, hany, ih]
    | cancel mask => simp [monitorBatch]

/-- C4: the watcher can never observe the awaited notification.  The
poll loop rebinds its `event` argument to the integer poll mask, so the
match test compares the message event string against an int and is
always false: the watcher only ever terminates through the cancellation
pipe, and the wrapper (which writes the cancellation unconditionally
right after the executor returns) therefore returns success without any
watcher-observed match — here even on a schedule that delivers a
perfectly matching notification before the cancellation. -/
theorem sync_never_observes_match :
    (∀ (e : PyV) (i : String) (s : List (List PollItem)),
        monitor e i s ≠ MonOutcome.matched) ∧
    monitor (.vstr "RTM_NEWLINK") "eth0"
        [[PollItem.nl 1 [⟨"RTM_NEWLINK", some "eth0"⟩]], [PollItem.cancel 1]] =
      MonOutcome.cancelled ∧
    (sync_decorated (fun _ => ([], .ok (.vint 0))) msgC1).2 = .ok (.vint 0) := by
  refine ⟨?_, rfl, rfl⟩
  intro e i s
  induction s with
  | nil => simp [monitor]
  | cons b more ih =>
    rcases hb : monitorBatch i b with _ | o
    · simpa [monitor, hb] using ih
    · have hm := monitorBatch_no_match i b
      rw [hb] at hm
      cases o
      · exact absurd rfl hm
      · simp [monitor, hb]
      · simp [monitor, hb]

/-- C5: on every exit path of the decorated wrapper — the executor
returning or raising — the cancellation write, the watcher join and the
closing of both pipe ends all happen (in that order) before the wrapper
returns, the executor outcome is propagated unchanged, and the joined
watcher does terminate: once the cancellation is in its schedule it
never hangs. -/
theorem sync_decorated_cleanup_every_path
    (f : LinkMsg → List Nat × Except PyErr PyV) (msg : LinkMsg) :
    (sync_decorated f msg).2 = (f msg).2 ∧
    (sync_decorated f msg).1 =
      [SyncAct.pipeOpen, SyncAct.threadStart] ++
        (f msg).1.map SyncAct.execEvent ++
        [SyncAct.writeCancel, SyncAct.joinWatcher,
         SyncAct.closeReadEnd, SyncAct.closeWriteEnd] ∧
    (∀ (e : PyV) (i : String) (pre : List (List PollItem)) (mask : Int),
        monitor e i (pre ++ [[PollItem.cancel mask]]) ≠ MonOutcome.hung) := by
  refine ⟨?_, ?_, ?_⟩
  · rcases hr : (f msg).2 with er | v <;> simp [sync_decorated, hr]
  · simp [sync_decorated, syncCleanup]
  · intro e i pre mask
    induction pre with
    | nil => simp [monitor, monitorBatch]
    | cons b more ih =>
      rcases hb : monitorBatch i b with _ | o
      · simpa [monitor, hb] using ih
      · have hnh := monitorBatch_not_hung i b
        rw [hb] at hnh
        cases o
        · simp [monitor, hb]
        · simp [monitor, hb]
        · exact absurd rfl hnh

/-! C7: the create-link router. -/

/-- C7: create-link routing branches strictly on the declared info
kind — tuntap and team always go to their executors, bond and bridge go
to the legacy creators exactly when the matching capability is absent,
and every other declared or missing kind (including a capability-gated
native bond/bridge) forwards the original request bytes unmodified. -/
theorem proxy_newlink_routing (caps : Caps) (data : String) (msg : LinkMsg) :
    (proxy_newlink caps data msg = .toTuntap msg ↔
       declaredKind msg = some "tuntap") ∧
    (proxy_newlink caps data msg = .toTeam msg ↔
       declaredKind msg = some "team") ∧
    (proxy_newlink caps data msg = .toCreateBond msg ↔
       declaredKind msg = some "bond" ∧ caps.create_bond = false) ∧
    (proxy_newlink caps data msg = .toCreateBridge msg ↔
       declaredKind msg = some "bridge" ∧ caps.create_bridge = false) ∧
    (proxy_newlink caps data msg = .fwd data ↔
       (declaredKind msg ≠ some "tuntap" ∧ declaredKind msg ≠ some "team" ∧
        ¬(declaredKind msg = some "bond" ∧ caps.create_bond = false) ∧
        ¬(declaredKind msg = some "bridge" ∧ caps.create_bridge = false))) := by
  rcases hk : newlinkKind msg with _ | v
  · simp [proxy_newlink, declaredKind, hk]
  · rcases v with n | k | t
    · simp [proxy_newlink, declaredKind, hk]
    · by_cases h1 : k = "tuntap"
      · subst h1; simp [proxy_newlink, declaredKind, hk]
      · by_cases h2 : k = "team"
        · subst h2; simp [proxy_newlink, declaredKind, hk]
        · by_cases h3 : k = "bond"
          · subst h3
            rcases hc : caps.create_bond <;>
              simp [proxy_newlink, declaredKind, hk, hc]
          · by_cases h4 : k = "bridge"
            · subst h4
              rcases hc : caps.create_bridge <;>
                simp [proxy_newlink, declaredKind, hk, hc]
            · simp [proxy_newlink, declaredKind, hk, h1, h2, h3, h4]
    · simp [proxy_newlink, declaredKind, hk]

/-! C9: tun/tap request validation. -/

/-- Helper: an absent or unrecognized mode makes the flag computation
raise `ValueError` before anything else is examined. -/
theorem tuntapFlags_invalid_mode (infodata : List (String × AVal))
    (h1 : getA infodata "IFTUN_MODE" ≠ some (.s "tun"))
    (h2 : getA infodata "IFTUN_MODE" ≠ some (.s "tap")) :
    tuntapFlags infodata = .error (.valueError "invalid mode") := by
  unfold tuntapFlags
  rcases hm : getA infodata "IFTUN_MODE" with _ | v
  · rfl
  · rcases v with n | k | t
    · rfl
    · rw [hm] at h1 h2
      have hk1 : k ≠ "tun" := by
        intro hcon; exact h1 (by rw [hcon])
      have hk2 : k ≠ "tap" := by
        intro hcon; exact h2 (by rw [hcon])
      simp [hk1, hk2]
    · rfl

/-- C9: a tun/tap create request with an absent or invalid mode is
rejected before the control device is opened; an interface name longer
than 16 characters is rejected before any ioctl; and on an architecture
with no known ioctl numbers the request is rejected as unsupported
before any tun-device syscall — in each case the syscall trace is
empty. -/
theorem manage_tuntap_validation (env : TunEnv) (msg : LinkMsg)
    (li infodata : List (String × AVal)) (nums : TunNums) (fl : Nat)
    (name : String) :
    (env.nums = none →
       manage_tuntap env msg =
         ([], .error (.netlinkError 95 "Arch not supported"))) ∧
    (env.nums = some nums → msg.htype = RTM_NEWLINK →
       msg.get_attr "IFLA_LINKINFO" = some (.tree li) →
       getA li "IFLA_INFO_DATA" = some (.tree infodata) →
       getA infodata "IFTUN_MODE" ≠ some (.s "tun") →
       getA infodata "IFTUN_MODE" ≠ some (.s "tap") →
       manage_tuntap env msg = ([], .error (.valueError "invalid mode"))) ∧
    (env.nums = some nums → msg.htype = RTM_NEWLINK →
       msg.get_attr "IFLA_LINKINFO" = some (.tree li) →
       getA li "IFLA_INFO_DATA" = some (.tree infodata) →
       tuntapFlags infodata = .ok fl →
       getStrA msg "IFLA_IFNAME" = some name →
       name.length > IFNAMSIZ →
       manage_tuntap env msg = ([], .error (.valueError "ifname too long"))) := by
  refine ⟨?_, ?_, ?_⟩
  · intro h
    simp [manage_tuntap, h]
  · intro hn hh hli hdata hm1 hm2
    have hf := tuntapFlags_invalid_mode infodata hm1 hm2
    simp [manage_tuntap, hn, hh, hli, hdata, hf]
  · intro hn hh hli hdata hflags hname hlen
    simp [manage_tuntap, hn, hh, hli, hdata, hflags, hname, hlen]

/-- The x86 family ioctl request numbers (module header lines 31-35). -/
def tunNumsX86 : TunNums := ⟨0x400454ca, 0x400454cb, 0x400454cc, 0x400454ce⟩

/-- Tun environment on an architecture with no known ioctl numbers. -/
def envNoArch : TunEnv := ⟨none, none, fun _ => none⟩

/-- Tun environment on x86 with all syscalls succeeding. -/
def envArch : TunEnv := ⟨some tunNumsX86, none, fun _ => none⟩

/-- Info-data of a tun/tap request with an unrecognized mode. -/
def infodataBadMode : List (String × AVal) := [("IFTUN_MODE", AVal.s "bogus")]

/-- Link-info of the bad-mode request. -/
def liBadMode : List (String × AVal) :=
  [("IFLA_INFO_KIND", AVal.s "tuntap"),
   ("IFLA_INFO_DATA", AVal.tree infodataBadMode)]

/-- A tuntap create request with an invalid mode. -/
def msgBadMode : LinkMsg :=
  ⟨16, 5, "RTM_NEWLINK", true,
   [("IFLA_IFNAME", AVal.s "tx0"), ("IFLA_LINKINFO", AVal.tree liBadMode)]⟩

/-- Info-data of a valid tun-mode request. -/
def infodataTun : List (String × AVal) := [("IFTUN_MODE", AVal.s "tun")]

/-- Link-info of the valid tun-mode request. -/
def liTun : List (String × AVal) :=
  [("IFLA_INFO_KIND", AVal.s "tuntap"),
   ("IFLA_INFO_DATA", AVal.tree infodataTun)]

/-- A tuntap create request whose interface name has 17 characters. -/
def msgLongName : LinkMsg :=
  ⟨16, 5, "RTM_NEWLINK", true,
   [("IFLA_IFNAME", AVal.s "abcdefghijklmnopq"),
    ("IFLA_LINKINFO", AVal.tree liTun)]⟩

/-- C9, witness: the three rejection paths at concrete requests. -/
theorem manage_tuntap_validation_witness :
    manage_tuntap envNoArch msgBadMode =
      ([], .error (.netlinkError 95 "Arch not supported")) ∧
    manage_tuntap envArch msgBadMode =
      ([], .error (.valueError "invalid mode")) ∧
    manage_tuntap envArch msgLongName =
      ([], .error (.valueError "ifname too long")) := by
  refine ⟨?_, ?_, ?_⟩
  · exact (manage_tuntap_validation envNoArch msgBadMode [] []
      tunNumsX86 0 "").1 rfl
  · exact (manage_tuntap_validation envArch msgBadMode liBadMode infodataBadMode
      tunNumsX86 0 "").2.1 rfl rfl rfl rfl (by simp [getA, infodataBadMode])
      (by simp [getA, infodataBadMode])
  · exact (manage_tuntap_validation envArch msgLongName liTun infodataTun
      tunNumsX86 IFT_TUN "abcdefghijklmnopq").2.2 rfl rfl rfl rfl rfl rfl
      (by decide)

/-! C2: the bond/bridge attribute-write loop of the modify-link path. -/

/-- The shell command the write loop issues for one (attribute, value)
pair. -/
def setlinkWriteCmd (tabs : NlaTables) (kind : Option String) (ifname : String)
    (p : String × AVal) : String :=
  if kind == some "bond" then
    bondSetCmd (pyFmt (some p.2)) ifname (tabs.nla2name p.1)
  else bridgeSetCmd (pyFmt (some p.2)) ifname (tabs.nla2name p.1)

/-- The exit code kept by `code = rc or code` over a list of exit
codes, starting from `c0`: the last non-zero one (or `c0`). -/
def lastNonZeroFrom (c0 : Int) (rcs : List Int) : Int :=
  rcs.foldl (fun acc rc => if rc ≠ 0 then rc else acc) c0

/-- Unfolding step of `lastNonZeroFrom`. -/
theorem lastNonZeroFrom_cons (c0 r : Int) (rs : List Int) :
    lastNonZeroFrom c0 (r :: rs) = lastNonZeroFrom (if r ≠ 0 then r else c0) rs :=
  rfl

/-- Helper for C2: one write-loop step appends one shell write and
applies the `or` update to the code accumulator. -/
theorem setlinkWriteStep_spec (env : SetEnv) (tabs : NlaTables)
    (kind : Option String) (ifname : String) (tr0 : List Eff) (c0 : Int)
    (p : String × AVal) :
    setlinkWriteStep env tabs kind ifname (tr0, c0) p =
      (tr0 ++ [Eff.shellWrite (setlinkWriteCmd tabs kind ifname p)],
       if env.shellRc (setlinkWriteCmd tabs kind ifname p) ≠ 0 then
         env.shellRc (setlinkWriteCmd tabs kind ifname p)
       else c0) := by
  by_cases hk : (kind == some "bond") = true
  · simp [setlinkWriteStep, setlinkWriteCmd, compat_set_bond, hk]
  · simp only [Bool.not_eq_true] at hk
    simp [setlinkWriteStep, setlinkWriteCmd, compat_set_bridge, hk]

/-- Helper for C2: the write loop with a generalized accumulator issues
one shell write per pair, in order, and keeps the last non-zero code. -/
theorem setlinkWriteLoop_go (env : SetEnv) (tabs : NlaTables)
    (kind : Option String) (ifname : String) :
    ∀ (pairs : List (String × AVal)) (tr0 : List Eff) (c0 : Int),
      pairs.foldl (setlinkWriteStep env tabs kind ifname) (tr0, c0) =
      (tr0 ++ pairs.map (fun p =>
         Eff.shellWrite (setlinkWriteCmd tabs kind ifname p)),
       lastNonZeroFrom c0 (pairs.map (fun p =>
         env.shellRc (setlinkWriteCmd tabs kind ifname p)))) := by
  intro pairs
  induction pairs with
  | nil => intro tr0 c0; simp [lastNonZeroFrom]
  | cons p rest ih =>
    intro tr0 c0
    rw [List.foldl_cons, setlinkWriteStep_spec, ih]
    simp [lastNonZeroFrom_cons]

/-- Helper for C2: closed form of `setlinkWriteLoop`. -/
theorem setlinkWriteLoop_spec (env : SetEnv) (tabs : NlaTables)
    (kind : Option String) (ifname : String) (pairs : List (String × AVal)) :
    setlinkWriteLoop env tabs kind ifname pairs =
      (pairs.map (fun p => Eff.shellWrite (setlinkWriteCmd tabs kind ifname p)),
       lastNonZeroFrom 0 (pairs.map (fun p =>
         env.shellRc (setlinkWriteCmd tabs kind ifname p)))) := by
  unfold setlinkWriteLoop
  simpa using setlinkWriteLoop_go env tabs kind ifname pairs [] 0

/-- A modify-link request for a bond carrying an info-data block. -/
def bondSetMsg (ifname : String) (pairs : List (String × AVal)) : LinkMsg :=
  ⟨16, 1, "RTM_NEWLINK", true,
   [("IFLA_IFNAME", AVal.s ifname),
    ("IFLA_LINKINFO", AVal.tree
      [("IFLA_INFO_KIND", AVal.s "bond"),
       ("IFLA_INFO_DATA", AVal.tree pairs)])]⟩

/-- A modify-link request of the given kind carrying an info-data
block (the shape `proxy_setlink` decodes for the attribute-write
stage). -/
def kindSetMsg (kindTag ifname : String) (pairs : List (String × AVal)) :
    LinkMsg :=
  ⟨16, 1, "RTM_NEWLINK", true,
   [("IFLA_IFNAME", AVal.s ifname),
    ("IFLA_LINKINFO", AVal.tree
      [("IFLA_INFO_KIND", AVal.s kindTag),
       ("IFLA_INFO_DATA", AVal.tree pairs)])]⟩

/-- Helper for C2: the write stage on a bond or bridge info-data block. -/
theorem setlinkWriteStage_data (env : SetEnv) (tabs : NlaTables)
    (kindTag ifname : String) (pairs : List (String × AVal))
    (hkind : kindTag = "bond" ∨ kindTag = "bridge") :
    setlinkWriteStage env tabs (some kindTag) (some (.tree pairs)) ifname =
      (pairs.map (fun p =>
         Eff.shellWrite (setlinkWriteCmd tabs (some kindTag) ifname p)),
       if lastNonZeroFrom 0 (pairs.map (fun p =>
            env.shellRc (setlinkWriteCmd tabs (some kindTag) ifname p))) ≠ 0
       then .error (.osError (lastNonZeroFrom 0 (pairs.map (fun p =>
            env.shellRc (setlinkWriteCmd tabs (some kindTag) ifname p)))))
       else .ok ()) := by
  rcases hkind with h | h
  · subst h
    show (match setlinkWriteLoop env tabs (some "bond") ifname pairs with
          | (tr, code) =>
            (tr, if code ≠ 0 then Except.error (PyErr.osError code)
                 else Except.ok ())) = _
    rw [setlinkWriteLoop_spec]
  · subst h
    show (match setlinkWriteLoop env tabs (some "bridge") ifname pairs with
          | (tr, code) =>
            (tr, if code ≠ 0 then Except.error (PyErr.osError code)
                 else Except.ok ())) = _
    rw [setlinkWriteLoop_spec]

/-- A netlink handle whose link queries return an empty message. -/
def nlIdle : NlHandle := ⟨capsOn, fun _ => ⟨16, 0, "RTM_NEWLINK", true, []⟩⟩

/-- Modify-link environment where the miimon write exits 5 and the
use_carrier write exits 7. -/
def envC2 : SetEnv :=
  ⟨nlIdle,
   fun c => if c == bondSetCmd "1" "bond0" "miimon" then 5
            else if c == bondSetCmd "0" "bond0" "use_carrier" then 7 else 0,
   fun _ _ => none,
   fun _ => none⟩

/-- The two (attribute, value) pairs of the C2 scenario. -/
def pairsC2 : List (String × AVal) :=
  [("IFLA_BOND_MIIMON", AVal.i 1), ("IFLA_BOND_USE_CARRIER", AVal.i 0)]

/-- Attribute tables for the C2 scenario. -/
def tabsC2 : NlaTables :=
  ⟨["IFLA_BOND_MODE"], [],
   fun s => if s == "IFLA_BOND_MIIMON" then "miimon"
            else if s == "IFLA_BOND_USE_CARRIER" then "use_carrier" else "x"⟩

/-- C2, counterexample: two attribute writes whose exit codes are 5
then 7; both writes are attempted, but the raised code is 7 — the LAST
non-zero code, not the first (5) as the claim states. -/
theorem proxy_setlink_first_code_claim_false :
    proxy_setlink envC2 tabsC2 "wire" (bondSetMsg "bond0" pairsC2) =
      ([Eff.shellWrite (bondSetCmd "1" "bond0" "miimon"),
        Eff.shellWrite (bondSetCmd "0" "bond0" "use_carrier")],
       .error (.osError 7)) ∧
    envC2.shellRc (bondSetCmd "1" "bond0" "miimon") = 5 ∧
    (7 : Int) ≠ 5 :=
  ⟨rfl, rfl, by decide⟩

/-- C2, amended: for every bond or bridge modify request carrying N
(attribute, value) pairs, all N sysfs writes are attempted in order
with no early abort, and when at least one exits non-zero the operation
raises `OSError` carrying the LAST non-zero exit code observed across
the writes; when all exit zero the request is forwarded. -/
theorem proxy_setlink_all_writes_last_code (env : SetEnv) (tabs : NlaTables)
    (data kindTag ifname : String) (pairs : List (String × AVal))
    (hname : ifname ≠ "")
    (hkind : kindTag = "bond" ∨ kindTag = "bridge") :
    (proxy_setlink env tabs data (kindSetMsg kindTag ifname pairs)).1 =
      pairs.map (fun p =>
        Eff.shellWrite (setlinkWriteCmd tabs (some kindTag) ifname p)) ∧
    (lastNonZeroFrom 0 (pairs.map (fun p =>
        env.shellRc (setlinkWriteCmd tabs (some kindTag) ifname p))) ≠ 0 →
      (proxy_setlink env tabs data (kindSetMsg kindTag ifname pairs)).2 =
        .error (.osError (lastNonZeroFrom 0 (pairs.map (fun p =>
          env.shellRc (setlinkWriteCmd tabs (some kindTag) ifname p)))))) ∧
    (lastNonZeroFrom 0 (pairs.map (fun p =>
        env.shellRc (setlinkWriteCmd tabs (some kindTag) ifname p))) = 0 →
      (proxy_setlink env tabs data (kindSetMsg kindTag ifname pairs)).2 =
        .ok (some ⟨"forward", data⟩)) := by
  have hif : setlinkIfname env (kindSetMsg kindTag ifname pairs) = ifname := by
    have hne : (ifname == "") = false := by
      rcases h : ifname == "" with _ | _
      · rfl
      · exact absurd (by simpa using h) hname
    simp [setlinkIfname, getStrA, LinkMsg.get_attr, getA, kindSetMsg,
      List.find?, hne]
  have hki : setlinkKindInfodata (kindSetMsg kindTag ifname pairs) =
      (some kindTag, some (.tree pairs)) := rfl
  have hmaster : getIntA (kindSetMsg kindTag ifname pairs) "IFLA_MASTER" =
      none := rfl
  simp only [proxy_setlink, hki, hif, hmaster,
    setlinkWriteStage_data env tabs kindTag ifname pairs hkind]
  by_cases hc : lastNonZeroFrom 0 (pairs.map (fun p =>
      env.shellRc (setlinkWriteCmd tabs (some kindTag) ifname p))) = 0
  · simp [hc]
  · simp [hc]

/-- Modify-link environment where the bridge stp_state write exits 3. -/
def envC2b : SetEnv :=
  ⟨nlIdle,
   fun c => if c == bridgeSetCmd "1" "br0" "stp_state" then 3 else 0,
   fun _ _ => none,
   fun _ => none⟩

/-- The single (attribute, value) pair of the bridge C2 scenario. -/
def pairsC2b : List (String × AVal) := [("IFLA_BR_STP_STATE", AVal.i 1)]

/-- Attribute tables for the bridge C2 scenario. -/
def tabsC2b : NlaTables :=
  ⟨[], [], fun s => if s == "IFLA_BR_STP_STATE" then "stp_state" else "y"⟩

/-- C2, witness for the amended theorem at two concrete runs: the bond
request with exit codes 5 then 7, and a bridge request whose single
write exits 3. -/
theorem proxy_setlink_all_writes_last_code_witness :
    ("bond0" : String) ≠ "" ∧
    (("bond" : String) = "bond" ∨ ("bond" : String) = "bridge") ∧
    (proxy_setlink envC2 tabsC2 "wire" (kindSetMsg "bond" "bond0" pairsC2)).1 =
      pairsC2.map (fun p =>
        Eff.shellWrite (setlinkWriteCmd tabsC2 (some "bond") "bond0" p)) ∧
    (proxy_setlink envC2 tabsC2 "wire" (kindSetMsg "bond" "bond0" pairsC2)).2 =
      .error (.osError 7) ∧
    (("bridge" : String) = "bond" ∨ ("bridge" : String) = "bridge") ∧
    (proxy_setlink envC2b tabsC2b "wb" (kindSetMsg "bridge" "br0" pairsC2b)).1 =
      pairsC2b.map (fun p =>
        Eff.shellWrite (setlinkWriteCmd tabsC2b (some "bridge") "br0" p)) ∧
    (proxy_setlink envC2b tabsC2b "wb" (kindSetMsg "bridge" "br0" pairsC2b)).2 =
      .error (.osError 3) := by
  have hb := proxy_setlink_all_writes_last_code envC2 tabsC2 "wire" "bond"
    "bond0" pairsC2 (by decide) (Or.inl rfl)
  have hr := proxy_setlink_all_writes_last_code envC2b tabsC2b "wb" "bridge"
    "br0" pairsC2b (by decide) (Or.inr rfl)
  exact ⟨by decide, Or.inl rfl, hb.1, hb.2.1 (by decide), Or.inr rfl,
    hr.1, hr.2.1 (by decide)⟩

/-! C6: bond port attach/detach through the slaves file. -/

/-- Helper: the master-resolution step only ever produces the add
command (for a non-zero master index) or the del command (for index
zero, after the current-master lookup). -/
theorem setlinkResolveMaster_cmd (env : SetEnv) (msg : LinkMsg) (mi : Int)
    (mdesc : IfaceDesc) (cmd : String)
    (h : setlinkResolveMaster env msg mi = .ok (mdesc, cmd)) :
    (mi ≠ 0 ∧ cmd = "add") ∨ (mi = 0 ∧ cmd = "del") := by
  unfold setlinkResolveMaster at h
  by_cases hz : mi = 0
  · subst hz
    rw [if_pos rfl] at h
    have h2 : (match (get_interface env.nl msg.index).master with
        | some mj => Except.ok (get_interface env.nl mj, "del")
        | none => Except.error PyErr.typeError) = Except.ok (mdesc, cmd) := h
    rcases hm : (get_interface env.nl msg.index).master with _ | mj
    · rw [hm] at h2; cases h2
    · rw [hm] at h2
      right
      refine ⟨rfl, ?_⟩
      cases h2
      rfl
  · rw [if_neg hz] at h
    left
    refine ⟨hz, ?_⟩
    cases h
    rfl

/-- C6: with the create_bond capability absent and the resolved master
kind bond, an attach (non-zero master index) performs exactly one write
of plus-portname, and a detach (master index zero, resolved through the
current-master lookup) exactly one write of minus-portname, to the
slaves file of the bond master; in both cases the request is consumed
(no forward verdict). -/
theorem proxy_setlink_bond_port (env : SetEnv) (tabs : NlaTables)
    (data : String) (msg : LinkMsg) (mi : Int) (mdesc : IfaceDesc)
    (cmd : String)
    (hli : msg.get_attr "IFLA_LINKINFO" = none)
    (hmaster : getIntA msg "IFLA_MASTER" = some mi)
    (hres : setlinkResolveMaster env msg mi = .ok (mdesc, cmd))
    (hkind : mdesc.kind = some "bond")
    (hcap : env.nl.caps.create_bond = false)
    (hwrite : env.writeErr (bondSlavesPath mdesc.ifname)
        ((if mi = 0 then "-" else "+") ++ setlinkIfname env msg) = none) :
    proxy_setlink env tabs data msg =
      ([Eff.fileWrite (bondSlavesPath mdesc.ifname)
          ((if mi = 0 then "-" else "+") ++ setlinkIfname env msg)],
       .ok none) := by
  have hki : setlinkKindInfodata msg = (none, none) := by
    unfold setlinkKindInfodata; rw [hli]
  rcases setlinkResolveMaster_cmd env msg mi mdesc cmd hres with
    ⟨hz, hcmd⟩ | ⟨hz, hcmd⟩
  · subst hcmd
    rw [if_neg hz] at hwrite
    simp only [proxy_setlink, hki, hmaster, hres, portDispatch, hkind,
      setlinkWriteStage]
    simp [compat_bond_port, hcap, hwrite, if_neg hz]
  · subst hcmd
    rw [if_pos hz] at hwrite
    simp only [proxy_setlink, hki, hmaster, hres, portDispatch, hkind,
      setlinkWriteStage]
    simp [compat_bond_port, hcap, hwrite, if_pos hz]

/-- A port interface message carrying a non-zero master index. -/
def portMsgC6 : LinkMsg :=
  ⟨16, 2, "RTM_NEWLINK", true,
   [("IFLA_IFNAME", AVal.s "eth0"), ("IFLA_MASTER", AVal.i 4)]⟩

/-- A detach request: master index zero. -/
def msgC6del : LinkMsg :=
  ⟨16, 2, "RTM_NEWLINK", true,
   [("IFLA_IFNAME", AVal.s "eth0"), ("IFLA_MASTER", AVal.i 0)]⟩

/-- The live description of the bond master, as the kernel returns it. -/
def bondMasterMsg : LinkMsg :=
  ⟨16, 4, "RTM_NEWLINK", true,
   [("IFLA_IFNAME", AVal.s "bond0"),
    ("IFLA_LINKINFO", AVal.tree [("IFLA_INFO_KIND", AVal.s "bond")])]⟩

/-- Netlink handle for the C6 scenarios: index 4 is the bond master,
every other index is the eth0 port (which currently has master 4). -/
def nlC6 : NlHandle :=
  ⟨⟨true, false, true⟩, fun i => if i == 4 then bondMasterMsg else portMsgC6⟩

/-- Modify-link environment for the C6 scenarios: all writes succeed. -/
def envC6 : SetEnv := ⟨nlC6, fun _ => 0, fun _ _ => none, fun _ => none⟩

/-- C6, witness: concrete attach and detach runs. -/
theorem proxy_setlink_bond_port_witness :
    proxy_setlink envC6 tabsC2 "w6" portMsgC6 =
      ([Eff.fileWrite (bondSlavesPath "bond0") ("+" ++ "eth0")], .ok none) ∧
    proxy_setlink envC6 tabsC2 "w6" msgC6del =
      ([Eff.fileWrite (bondSlavesPath "bond0") ("-" ++ "eth0")], .ok none) := by
  constructor
  · have h := proxy_setlink_bond_port envC6 tabsC2 "w6" portMsgC6 4
      ⟨"bond0", none, some "bond"⟩ "add" rfl rfl rfl rfl rfl rfl
    simpa using h
  · have h := proxy_setlink_bond_port envC6 tabsC2 "w6" msgC6del 0
      ⟨"bond0", none, some "bond"⟩ "del" rfl rfl rfl rfl rfl rfl
    simpa using h

/-! C10: frame effect of the modify-link entry point. -/

/-- Helper for C10: the port dispatch yields the Python None outcome
only when a legacy backend actually ran — team always runs the external
tool, bridge and bond run legacy paths only with the capability absent
(the capability branch returns True instead). -/
theorem portDispatch_legacy (env : SetEnv) (cmd : String) (mdesc : IfaceDesc)
    (port : String) (tr2 : List Eff)
    (h : portDispatch env cmd mdesc port = some (tr2, .ok none)) :
    mdesc.kind = some "team" ∨
    (mdesc.kind = some "bridge" ∧ env.nl.caps.create_bridge = false) ∨
    (mdesc.kind = some "bond" ∧ env.nl.caps.create_bond = false) := by
  rcases hkk : mdesc.kind with _ | k
  · simp [portDispatch, hkk] at h
  · simp only [portDispatch, hkk] at h
    by_cases h1 : (k == "team") = true
    · have hk1 : k = "team" := by simpa using h1
      subst hk1
      left
      rfl
    · rw [Bool.not_eq_true] at h1
      simp only [h1, Bool.false_eq_true, if_false] at h
      by_cases h2 : (k == "bridge") = true
      · have hk2 : k = "bridge" := by simpa using h2
        subst hk2
        simp only [h2, if_true] at h
        by_cases hcb : env.nl.caps.create_bridge = true
        · simp [compat_bridge_port, hcb] at h
        · rw [Bool.not_eq_true] at hcb
          right; left
          exact ⟨rfl, hcb⟩
      · rw [Bool.not_eq_true] at h2
        simp only [h2, Bool.false_eq_true, if_false] at h
        by_cases h3 : (k == "bond") = true
        · have hk3 : k = "bond" := by simpa using h3
          subst hk3
          simp only [h3, if_true] at h
          by_cases hcb : env.nl.caps.create_bond = true
          · simp [compat_bond_port, hcb] at h
          · rw [Bool.not_eq_true] at hcb
            right; right
            exact ⟨rfl, hcb⟩
        · rw [Bool.not_eq_true] at h3
          simp only [h3, Bool.false_eq_true, if_false] at h
          cases h

/-- C10: whenever the modify-link entry point returns a forward
verdict, the forwarded data is exactly the original wire buffer; and it
returns the consumed verdict (Python None, nothing forwarded) precisely
when the attribute-write stage passed, a master attribute was present
and resolved, and the dispatched team/bridge/bond port executor
actually ran to completion — which by `portDispatch_legacy` means a
legacy backend executed the port operation. -/
theorem proxy_setlink_forward_consumed (env : SetEnv) (tabs : NlaTables)
    (data : String) (msg : LinkMsg) :
    (∀ v, (proxy_setlink env tabs data msg).2 = .ok (some v) →
       v = ⟨"forward", data⟩) ∧
    ((proxy_setlink env tabs data msg).2 = .ok none ↔
       (setlinkWriteStage env tabs (setlinkKindInfodata msg).1
          (setlinkKindInfodata msg).2 (setlinkIfname env msg)).2 = .ok () ∧
       (∃ mi mdesc cmd tr2,
         getIntA msg "IFLA_MASTER" = some mi ∧
         setlinkResolveMaster env msg mi = .ok (mdesc, cmd) ∧
         portDispatch env cmd mdesc (setlinkIfname env msg) =
           some (tr2, .ok none))) ∧
    (∀ cmd mdesc port tr2,
       portDispatch env cmd mdesc port = some (tr2, .ok none) →
       mdesc.kind = some "team" ∨
       (mdesc.kind = some "bridge" ∧ env.nl.caps.create_bridge = false) ∨
       (mdesc.kind = some "bond" ∧ env.nl.caps.create_bond = false)) := by
  rcases hws : setlinkWriteStage env tabs (setlinkKindInfodata msg).1
      (setlinkKindInfodata msg).2 (setlinkIfname env msg) with ⟨tr1, res1⟩
  rcases res1 with e1 | u
  · refine ⟨?_, ?_, fun c m p t h => portDispatch_legacy env c m p t h⟩
    · intro v hv
      simp only [proxy_setlink, hws] at hv
      cases hv
    · constructor
      · intro hv
        simp only [proxy_setlink, hws] at hv
        cases hv
      · rintro ⟨hok, -⟩
        cases hok
  · cases u
    rcases hmi : getIntA msg "IFLA_MASTER" with _ | mi
    · refine ⟨?_, ?_, fun c m p t h => portDispatch_legacy env c m p t h⟩
      · intro v hv
        simp only [proxy_setlink, hws, hmi] at hv
        simpa using hv.symm
      · constructor
        · intro hv
          simp only [proxy_setlink, hws, hmi] at hv
          cases hv
        · rintro ⟨-, ⟨mi2, mdesc, cmd, tr2, hmi2, -, -⟩⟩
          cases hmi2
    · rcases hrm : setlinkResolveMaster env msg mi with e2 | md
      · refine ⟨?_, ?_, fun c m p t h => portDispatch_legacy env c m p t h⟩
        · intro v hv
          simp only [proxy_setlink, hws, hmi, hrm] at hv
          cases hv
        · constructor
          · intro hv
            simp only [proxy_setlink, hws, hmi, hrm] at hv
            cases hv
          · rintro ⟨-, ⟨mi2, mdesc, cmd, tr2, hmi2, hrm2, -⟩⟩
            cases hmi2
            rw [hrm] at hrm2
            cases hrm2
      · obtain ⟨mdesc, cmd⟩ := md
        rcases hpd : portDispatch env cmd mdesc (setlinkIfname env msg) with
          _ | pr
        · refine ⟨?_, ?_, fun c m p t h => portDispatch_legacy env c m p t h⟩
          · intro v hv
            simp only [proxy_setlink, hws, hmi, hrm, hpd] at hv
            simpa using hv.symm
          · constructor
            · intro hv
              simp only [proxy_setlink, hws, hmi, hrm, hpd] at hv
              cases hv
            · rintro ⟨-, ⟨mi2, mdesc2, cmd2, tr2, hmi2, hrm2, hpd2⟩⟩
              cases hmi2
              rw [hrm] at hrm2
              cases hrm2
              rw [hpd] at hpd2
              cases hpd2
        · obtain ⟨tr2, res2⟩ := pr
          rcases res2 with e3 | fwd
          · refine ⟨?_, ?_, fun c m p t h => portDispatch_legacy env c m p t h⟩
            · intro v hv
              simp only [proxy_setlink, hws, hmi, hrm, hpd] at hv
              cases hv
            · constructor
              · intro hv
                simp only [proxy_setlink, hws, hmi, hrm, hpd] at hv
                cases hv
              · rintro ⟨-, ⟨mi2, mdesc2, cmd2, tr3, hmi2, hrm2, hpd2⟩⟩
                cases hmi2
                rw [hrm] at hrm2
                cases hrm2
                rw [hpd] at hpd2
                cases hpd2
          · rcases fwd with _ | b
            · refine ⟨?_, ?_, fun c m p t h => portDispatch_legacy env c m p t h⟩
              · intro v hv
                simp only [proxy_setlink, hws, hmi, hrm, hpd] at hv
                simp at hv
              · constructor
                · intro _
                  exact ⟨rfl, ⟨mi, mdesc, cmd, tr2, rfl, hrm, hpd⟩⟩
                · intro _
                  simp only [proxy_setlink, hws, hmi, hrm, hpd]
                  rfl
            · refine ⟨?_, ?_, fun c m p t h => portDispatch_legacy env c m p t h⟩
              · intro v hv
                simp only [proxy_setlink, hws, hmi, hrm, hpd] at hv
                simpa using hv.symm
              · constructor
                · intro hv
                  simp only [proxy_setlink, hws, hmi, hrm, hpd] at hv
                  cases hv
                · rintro ⟨-, ⟨mi2, mdesc2, cmd2, tr3, hmi2, hrm2, hpd2⟩⟩
                  cases hmi2
                  rw [hrm] at hrm2
                  cases hrm2
                  rw [hpd] at hpd2
                  cases hpd2

/-- A modify request carrying neither link-info nor a master index. -/
def msgC6plain : LinkMsg :=
  ⟨16, 2, "RTM_NEWLINK", true, [("IFLA_IFNAME", AVal.s "eth0")]⟩

/-- C10, witness: the frame-effect theorem applied at concrete runs — a
request with no port operation is forwarded with its original bytes,
and the concrete bond attach is consumed via the characterization. -/
theorem proxy_setlink_forward_consumed_witness :
    (⟨"forward", "w10"⟩ : Verdict) = ⟨"forward", "w10"⟩ ∧
    (proxy_setlink envC6 tabsC2 "w10" portMsgC6).2 = .ok none := by
  constructor
  · exact (proxy_setlink_forward_consumed envC6 tabsC2 "w10" msgC6plain).1
      ⟨"forward", "w10"⟩ rfl
  · exact (proxy_setlink_forward_consumed envC6 tabsC2 "w10" portMsgC6).2.1.mpr
      ⟨rfl, 4, ⟨"bond0", none, some "bond"⟩, "add",
       [Eff.fileWrite (bondSlavesPath "bond0") ("+" ++ "eth0")], rfl, rfl, rfl⟩

end Pyroute2Compat
